import Mathlib

/-!
Verification development for the logistics health assessment system.

The Python sources are shallowly embedded:
* real numbers (Python floats) are modelled as rationals `ℚ`;
* fallible code is modelled in `Except String`; a Python `ZeroDivisionError`
  becomes `Except.error "ZeroDivisionError"`;
* Python dicts (insertion ordered) are modelled as association lists;
* Python `None` for optional ids is modelled with `Option`.
-/

/-- Embedding of `scoring.compute_question_score` (src/scoring.py, lines 4-12).
`target` is `Option ℚ` because the source checks `target is None or target == 0`.
Python raises `ZeroDivisionError` on `target / actual` when `actual == 0`,
which the embedding surfaces as `Except.error`. -/
def compute_question_score (actual : ℚ) (target : Option ℚ) (lower_is_better : Bool) :
    Except String ℚ :=
  match target with
  | none => Except.ok 0
  | some t =>
    if t = 0 then Except.ok 0
    else if lower_is_better then
      if actual = 0 then Except.error "ZeroDivisionError"
      else
        let score := t / actual * 100
        let score1 := if score < 0 then (0 : ℚ) else score
        let score2 := if score1 > 100 then (100 : ℚ) else score1
        Except.ok score2
    else
      let score := actual / t * 100
      let score1 := if score < 0 then (0 : ℚ) else score
      let score2 := if score1 > 100 then (100 : ℚ) else score1
      Except.ok score2

/-- Embedding of the `RAW_PERCENT` branch used at src/pages_survey.py line 308:
`max(0.0, min(100.0, act))`. -/
def raw_percent_score (act : ℚ) : ℚ := max 0 (min 100 act)

/-- The two clamping `if` statements of `compute_question_score` equal
`min 100 (max 0 x)`. -/
lemma clamp_ifs_eq (x : ℚ) :
    (if (if x < 0 then (0 : ℚ) else x) > 100 then (100 : ℚ)
     else if x < 0 then (0 : ℚ) else x) = min 100 (max 0 x) := by
  rcases lt_or_ge x 0 with h | h
  · rw [if_pos h, if_neg (by norm_num : ¬ (0 : ℚ) > 100),
      max_eq_left (le_of_lt h), min_eq_right (by norm_num : (0 : ℚ) ≤ 100)]
  · rw [if_neg (not_lt.mpr h), max_eq_right h]
    rcases le_or_lt x 100 with h2 | h2
    · rw [if_neg (not_lt.mpr h2), min_eq_right h2]
    · rw [if_pos h2, min_eq_left (le_of_lt h2)]

/-- HIB scoring (target present and nonzero) returns the clamped ratio. -/
lemma compute_question_score_hib (a t : ℚ) (ht : t ≠ 0) :
    compute_question_score a (some t) false = Except.ok (min 100 (max 0 (a / t * 100))) := by
  simp only [compute_question_score, if_neg ht, Bool.false_eq_true, if_false]
  rw [← clamp_ifs_eq (a / t * 100)]

/-- LIB scoring with nonzero actual (target present and nonzero) returns the
clamped inverse ratio. -/
lemma compute_question_score_lib (a t : ℚ) (ht : t ≠ 0) (ha : a ≠ 0) :
    compute_question_score a (some t) true = Except.ok (min 100 (max 0 (t / a * 100))) := by
  simp only [compute_question_score, if_neg ht, if_true, if_neg ha]
  rw [← clamp_ifs_eq (t / a * 100)]

/-- C1: scoring an answered LIB question with actual = 0 and target > 0 does not
return 100.0: the source has no special case for actual = 0 and the division
`target / actual` raises ZeroDivisionError. This theorem evaluates the embedded
code at the failing inputs. -/
theorem lib_zero_actual_crashes_c1 (t : ℚ) (ht : 0 < t) :
    compute_question_score 0 (some t) true = Except.error "ZeroDivisionError" := by
  simp [compute_question_score, ne_of_gt ht]

/-- C1 witness: concrete instance at target = 24 (the spec scenario's target). -/
theorem lib_zero_actual_crashes_c1_witness :
    (0 : ℚ) < 24 ∧
      compute_question_score 0 (some 24) true = Except.error "ZeroDivisionError" :=
  ⟨by norm_num, lib_zero_actual_crashes_c1 24 (by norm_num)⟩

/-- C2: question scoring is not total: at actual = 0, target = 1, formula LIB
the embedded code evaluates to a ZeroDivisionError, so the operation raises on
part of its documented domain. -/
theorem scoring_not_total_c2 :
    compute_question_score 0 (some 1) true = Except.error "ZeroDivisionError" := by
  norm_num [compute_question_score]

/-- C8: for every target > 0, the HIB score equals clamp(actual/target*100, 0, 100),
lies in [0, 100], and is monotonically non-decreasing in the actual value. -/
theorem hib_clamped_monotone_c8 (a₁ a₂ t : ℚ) (ht : 0 < t) (hle : a₁ ≤ a₂) :
    ∃ s₁ s₂ : ℚ,
      compute_question_score a₁ (some t) false = Except.ok s₁ ∧
      compute_question_score a₂ (some t) false = Except.ok s₂ ∧
      s₁ = min 100 (max 0 (a₁ / t * 100)) ∧
      0 ≤ s₁ ∧ s₁ ≤ 100 ∧ s₁ ≤ s₂ := by
  refine ⟨min 100 (max 0 (a₁ / t * 100)), min 100 (max 0 (a₂ / t * 100)),
    compute_question_score_hib a₁ t (ne_of_gt ht),
    compute_question_score_hib a₂ t (ne_of_gt ht), rfl, ?_, ?_, ?_⟩
  · exact le_min (by norm_num) (le_max_left 0 _)
  · exact min_le_left _ _
  · have hdiv : a₁ / t ≤ a₂ / t := by gcongr
    have hmul : a₁ / t * 100 ≤ a₂ / t * 100 := by
      exact mul_le_mul_of_nonneg_right hdiv (by norm_num)
    exact min_le_min (le_refl 100) (max_le_max (le_refl 0) hmul)

/-- C8 witness: concrete instance at actual values 50 and 150 against target 200. -/
theorem hib_clamped_monotone_c8_witness :
    (0 : ℚ) < 200 ∧ (50 : ℚ) ≤ 150 ∧
      ∃ s₁ s₂ : ℚ,
        compute_question_score 50 (some 200) false = Except.ok s₁ ∧
        compute_question_score 150 (some 200) false = Except.ok s₂ ∧
        s₁ = min 100 (max 0 ((50 : ℚ) / 200 * 100)) ∧
        0 ≤ s₁ ∧ s₁ ≤ 100 ∧ s₁ ≤ s₂ :=
  ⟨by norm_num, by norm_num,
    hib_clamped_monotone_c8 50 150 200 (by norm_num) (by norm_num)⟩

/-- C9: HIB and LIB scoring with a missing (null) or zero target returns exactly
0.0 for every actual value and never raises. -/
theorem degenerate_target_zero_c9 (a : ℚ) (lib : Bool) :
    compute_question_score a none lib = Except.ok 0 ∧
    compute_question_score a (some 0) lib = Except.ok 0 := by
  cases lib <;> simp [compute_question_score]

/-- Inner loop of `scoring.compute_survey_scores` (src/scoring.py, lines 22-27):
iterates over one category's `(score, weight)` items, accumulating the category
weighted sum, the category weight total, the overall weighted sum and the
overall weight total. -/
def category_fold : List (ℚ × ℚ) → ℚ → ℚ → ℚ → ℚ → ℚ × ℚ × ℚ × ℚ
  | [], cws, ctw, ows, tw => (cws, ctw, ows, tw)
  | (score, weight) :: rest, cws, ctw, ows, tw =>
    let w := weight / 100
    category_fold rest (cws + score * w) (ctw + w) (ows + score * w) (tw + w)

/-- Outer loop of `scoring.compute_survey_scores` (src/scoring.py, lines 19-29):
iterates over the category id → items association list, appending each
category's score (weighted mean, or 0 when its weight total is not positive). -/
def survey_fold : List (Nat × List (ℚ × ℚ)) → ℚ → ℚ → List (Nat × ℚ) →
    ℚ × ℚ × List (Nat × ℚ)
  | [], ows, tw, per => (ows, tw, per)
  | (cid, items) :: rest, ows, tw, per =>
    let r := category_fold items 0 0 ows tw
    let cat_score := if r.2.1 > 0 then r.1 / r.2.1 else 0
    survey_fold rest r.2.2.1 r.2.2.2 (per ++ [(cid, cat_score)])

/-- Embedding of `scoring.compute_survey_scores` (src/scoring.py, lines 15-31).
The Python dict argument is an insertion-ordered association list; the result is
the overall score together with the per-category score association list. -/
def compute_survey_scores (cat_id_to_scores : List (Nat × List (ℚ × ℚ))) :
    ℚ × List (Nat × ℚ) :=
  let r := survey_fold cat_id_to_scores 0 0 []
  (if r.2.1 > 0 then r.1 / r.2.1 else 0, r.2.2)

/-- Spec-side: sum of score × weight/100 over one category's items. -/
def catWeightedSum (items : List (ℚ × ℚ)) : ℚ :=
  (items.map (fun sw => sw.1 * (sw.2 / 100))).sum

/-- Spec-side: sum of weight/100 over one category's items. -/
def catWeightTotal (items : List (ℚ × ℚ)) : ℚ :=
  (items.map (fun sw => sw.2 / 100)).sum

/-- Spec-side category score: weighted mean when the weight sum is positive,
0 otherwise (from the spec, section 4.2). -/
def categoryScoreSpec (items : List (ℚ × ℚ)) : ℚ :=
  if catWeightTotal items > 0 then catWeightedSum items / catWeightTotal items else 0

/-- All `(score, weight)` items of the survey, flattened across categories. -/
def allItems (m : List (Nat × List (ℚ × ℚ))) : List (ℚ × ℚ) :=
  (m.map Prod.snd).flatten

/-- Spec-side overall score: flat weighted mean over all answered questions of
the whole survey, independent of the category grouping (spec, section 4.2). -/
def overallScoreSpec (m : List (Nat × List (ℚ × ℚ))) : ℚ :=
  categoryScoreSpec (allItems m)

lemma category_fold_eq (items : List (ℚ × ℚ)) (cws ctw ows tw : ℚ) :
    category_fold items cws ctw ows tw =
      (cws + catWeightedSum items, ctw + catWeightTotal items,
       ows + catWeightedSum items, tw + catWeightTotal items) := by
  induction items generalizing cws ctw ows tw with
  | nil => simp [category_fold, catWeightedSum, catWeightTotal]
  | cons sw rest ih =>
    obtain ⟨s, w⟩ := sw
    rw [category_fold, ih]
    simp only [catWeightedSum, catWeightTotal, List.map_cons, List.sum_cons]
    refine Prod.ext ?_ (Prod.ext ?_ (Prod.ext ?_ ?_)) <;> simp <;> ring

lemma survey_fold_eq (m : List (Nat × List (ℚ × ℚ))) (ows tw : ℚ)
    (per : List (Nat × ℚ)) :
    survey_fold m ows tw per =
      (ows + catWeightedSum (allItems m), tw + catWeightTotal (allItems m),
       per ++ m.map (fun p => (p.1, categoryScoreSpec p.2))) := by
  induction m generalizing ows tw per with
  | nil => simp [survey_fold, allItems, catWeightedSum, catWeightTotal]
  | cons p rest ih =>
    obtain ⟨cid, items⟩ := p
    rw [survey_fold, category_fold_eq, ih]
    simp only [allItems, List.map_cons, List.flatten_cons, catWeightedSum,
      catWeightTotal, List.map_append, List.sum_append, zero_add, categoryScoreSpec]
    refine Prod.ext ?_ (Prod.ext ?_ ?_) <;> simp [List.append_assoc] <;> ring

/-- Characterization of the aggregator: overall score is the flat weighted mean
of all items (0 when the total weight is not positive), and the per-category
list pairs each category id with its spec category score. -/
lemma compute_survey_scores_eq (m : List (Nat × List (ℚ × ℚ))) :
    compute_survey_scores m =
      (overallScoreSpec m, m.map (fun p => (p.1, categoryScoreSpec p.2))) := by
  rw [compute_survey_scores, survey_fold_eq]
  simp [overallScoreSpec, categoryScoreSpec]

/-- C5: each category score is (sum of score × weight/100) / (sum of weight/100)
when the weight sum is positive and 0.0 otherwise; the overall score is the flat
weighted mean of all answered questions across all categories; and two
RAW_PERCENT questions with weights 50/50 and actuals 80 and 60 yield category
score 70.0. -/
theorem aggregation_formula_c5 :
    (∀ m : List (Nat × List (ℚ × ℚ)),
      compute_survey_scores m =
        (overallScoreSpec m, m.map (fun p => (p.1, categoryScoreSpec p.2)))) ∧
    compute_survey_scores
        [(1, [(raw_percent_score 80, 50), (raw_percent_score 60, 50)])] =
      (70, [(1, 70)]) := by
  refine ⟨compute_survey_scores_eq, ?_⟩
  norm_num [compute_survey_scores, survey_fold, category_fold, raw_percent_score]

lemma catWeightedSum_perm {l₁ l₂ : List (ℚ × ℚ)} (h : l₁.Perm l₂) :
    catWeightedSum l₁ = catWeightedSum l₂ :=
  (h.map _).sum_eq

lemma catWeightTotal_perm {l₁ l₂ : List (ℚ × ℚ)} (h : l₁.Perm l₂) :
    catWeightTotal l₁ = catWeightTotal l₂ :=
  (h.map _).sum_eq

lemma categoryScoreSpec_perm {l₁ l₂ : List (ℚ × ℚ)} (h : l₁.Perm l₂) :
    categoryScoreSpec l₁ = categoryScoreSpec l₂ := by
  rw [categoryScoreSpec, categoryScoreSpec, catWeightedSum_perm h, catWeightTotal_perm h]

lemma forall2_catScores_map_eq {m₁ mid : List (Nat × List (ℚ × ℚ))}
    (h : List.Forall₂ (fun p q => p.1 = q.1 ∧ p.2.Perm q.2) m₁ mid) :
    m₁.map (fun p => (p.1, categoryScoreSpec p.2)) =
      mid.map (fun p => (p.1, categoryScoreSpec p.2)) := by
  induction h with
  | nil => rfl
  | cons hpq _ ih =>
    simp only [List.map_cons, ih, List.cons.injEq, and_true]
    rw [hpq.1, categoryScoreSpec_perm hpq.2]

lemma forall2_catWS_sum_eq {m₁ mid : List (Nat × List (ℚ × ℚ))}
    (h : List.Forall₂ (fun p q => p.1 = q.1 ∧ p.2.Perm q.2) m₁ mid) :
    (m₁.map (fun p => catWeightedSum p.2)).sum =
      (mid.map (fun p => catWeightedSum p.2)).sum := by
  induction h with
  | nil => rfl
  | cons hpq _ ih =>
    simp only [List.map_cons, List.sum_cons, ih, catWeightedSum_perm hpq.2]

lemma forall2_catWT_sum_eq {m₁ mid : List (Nat × List (ℚ × ℚ))}
    (h : List.Forall₂ (fun p q => p.1 = q.1 ∧ p.2.Perm q.2) m₁ mid) :
    (m₁.map (fun p => catWeightTotal p.2)).sum =
      (mid.map (fun p => catWeightTotal p.2)).sum := by
  induction h with
  | nil => rfl
  | cons hpq _ ih =>
    simp only [List.map_cons, List.sum_cons, ih, catWeightTotal_perm hpq.2]

lemma catWeightedSum_append (l₁ l₂ : List (ℚ × ℚ)) :
    catWeightedSum (l₁ ++ l₂) = catWeightedSum l₁ + catWeightedSum l₂ := by
  simp [catWeightedSum, List.map_append, List.sum_append]

lemma catWeightTotal_append (l₁ l₂ : List (ℚ × ℚ)) :
    catWeightTotal (l₁ ++ l₂) = catWeightTotal l₁ + catWeightTotal l₂ := by
  simp [catWeightTotal, List.map_append, List.sum_append]

lemma catWS_allItems (m : List (Nat × List (ℚ × ℚ))) :
    catWeightedSum (allItems m) = (m.map (fun p => catWeightedSum p.2)).sum := by
  induction m with
  | nil => simp [allItems, catWeightedSum]
  | cons p rest ih =>
    rw [show allItems (p :: rest) = p.2 ++ allItems rest from by simp [allItems],
      catWeightedSum_append, ih, List.map_cons, List.sum_cons]

lemma catWT_allItems (m : List (Nat × List (ℚ × ℚ))) :
    catWeightTotal (allItems m) = (m.map (fun p => catWeightTotal p.2)).sum := by
  induction m with
  | nil => simp [allItems, catWeightTotal]
  | cons p rest ih =>
    rw [show allItems (p :: rest) = p.2 ++ allItems rest from by simp [allItems],
      catWeightTotal_append, ih, List.map_cons, List.sum_cons]

/-- C7: the aggregation is pure and order-independent: recomputing on the same
input gives the same result, and permuting the items within each category
(relating `m₁` to `mid`) and then the category enumeration order (relating
`mid` to `m₂`) leaves the overall score unchanged and permutes the per-category
score list accordingly (every category's score is unchanged). -/
theorem aggregation_order_independent_c7 (m₁ mid m₂ : List (Nat × List (ℚ × ℚ)))
    (h₁ : List.Forall₂ (fun p q => p.1 = q.1 ∧ p.2.Perm q.2) m₁ mid)
    (h₂ : mid.Perm m₂) :
    compute_survey_scores m₁ = compute_survey_scores m₁ ∧
    (compute_survey_scores m₁).1 = (compute_survey_scores m₂).1 ∧
    ((compute_survey_scores m₁).2).Perm ((compute_survey_scores m₂).2) := by
  have hws : catWeightedSum (allItems m₁) = catWeightedSum (allItems m₂) := by
    rw [catWS_allItems, catWS_allItems, forall2_catWS_sum_eq h₁,
      (h₂.map (fun p => catWeightedSum p.2)).sum_eq]
  have htw : catWeightTotal (allItems m₁) = catWeightTotal (allItems m₂) := by
    rw [catWT_allItems, catWT_allItems, forall2_catWT_sum_eq h₁,
      (h₂.map (fun p => catWeightTotal p.2)).sum_eq]
  refine ⟨rfl, ?_, ?_⟩
  · rw [compute_survey_scores_eq, compute_survey_scores_eq]
    simp only [overallScoreSpec, categoryScoreSpec]
    rw [hws, htw]
  · rw [compute_survey_scores_eq, compute_survey_scores_eq]
    simp only
    rw [forall2_catScores_map_eq h₁]
    exact h₂.map _

/-- C7 witness: a two-category survey, first with its items swapped, then with
its categories swapped, keeps the overall score and permutes the category list. -/
theorem aggregation_order_independent_c7_witness :
    List.Forall₂ (fun (p q : Nat × List (ℚ × ℚ)) => p.1 = q.1 ∧ p.2.Perm q.2)
        [(1, [(80, 50), (60, 50)]), (2, [(10, 100)])]
        [(1, [(60, 50), (80, 50)]), (2, [(10, 100)])] ∧
      ([(1, [(60, 50), (80, 50)]), (2, [(10, 100)])] :
          List (Nat × List (ℚ × ℚ))).Perm
        [(2, [(10, 100)]), (1, [(60, 50), (80, 50)])] ∧
      (compute_survey_scores [(1, [(80, 50), (60, 50)]), (2, [(10, 100)])]).1 =
        (compute_survey_scores [(2, [(10, 100)]), (1, [(60, 50), (80, 50)])]).1 ∧
      ((compute_survey_scores [(1, [(80, 50), (60, 50)]), (2, [(10, 100)])]).2).Perm
        ((compute_survey_scores [(2, [(10, 100)]), (1, [(60, 50), (80, 50)])]).2) := by
  have hf : List.Forall₂ (fun (p q : Nat × List (ℚ × ℚ)) => p.1 = q.1 ∧ p.2.Perm q.2)
      [(1, [(80, 50), (60, 50)]), (2, [(10, 100)])]
      [(1, [(60, 50), (80, 50)]), (2, [(10, 100)])] :=
    List.Forall₂.cons ⟨rfl, List.Perm.swap _ _ _⟩
      (List.Forall₂.cons ⟨rfl, List.Perm.refl _⟩ List.Forall₂.nil)
  have hp : ([(1, [(60, 50), (80, 50)]), (2, [(10, 100)])] :
      List (Nat × List (ℚ × ℚ))).Perm
      [(2, [(10, 100)]), (1, [(60, 50), (80, 50)])] :=
    List.Perm.swap _ _ _
  have h := aggregation_order_independent_c7 _ _ _ hf hp
  exact ⟨hf, hp, h.2.1, h.2.2⟩

/-- One question's form input as assembled at src/pages_survey.py line 232:
the entered actual (None when unanswered), the framework target, formula kind,
weight, and the containing category's name. -/
structure QuestionInput where
  actual : Option ℚ
  target : Option ℚ
  formula : String
  weight : ℚ
  cat_name : String

/-- Python `dict.setdefault(k, []).append(v)` on an insertion-ordered
association list: append `v` to the list at key `k`, creating the key at the
end when absent (src/pages_survey.py line 311). -/
def setdefault_append (m : List (String × List (ℚ × ℚ))) (k : String) (v : ℚ × ℚ) :
    List (String × List (ℚ × ℚ)) :=
  if m.any (fun p => p.1 == k) then
    m.map (fun p => if p.1 == k then (p.1, p.2 ++ [v]) else p)
  else m ++ [(k, [v])]

/-- The scoring loop of `save_survey_operation` (src/pages_survey.py lines
299-311): unanswered questions are skipped; a missing target defaults to 0;
RAW_PERCENT questions are clamped directly, other formulas go through
`compute_question_score` (which can raise); each answered question's
(score, weight) is appended under its category name. -/
def build_cat_scores : List QuestionInput → List (String × List (ℚ × ℚ)) →
    Except String (List (String × List (ℚ × ℚ)))
  | [], acc => Except.ok acc
  | q :: rest, acc =>
    match q.actual with
    | none => build_cat_scores rest acc
    | some act =>
      match (if q.formula ≠ "RAW_PERCENT" then
          compute_question_score act (some (q.target.getD 0)) (q.formula == "LIB")
        else Except.ok (raw_percent_score act)) with
      | Except.error e => Except.error e
      | Except.ok score =>
        build_cat_scores rest (setdefault_append acc q.cat_name (score, q.weight))

/-- Python `enumerate(xs, start=1)` as an association list. -/
def enumerate1 {α : Type} (l : List α) : List (Nat × α) :=
  l.enum.map (fun p => (p.1 + 1, p.2))

/-- The CategoryScore rows persisted by `save_survey_operation`
(src/pages_survey.py lines 313-318): the per-category dict built from only the
categories that received answers is enumerated from 1, aggregated, and then a
row `(cat_idx, per_cat.get(cat_idx, 0.0))` is written for each 1-based position
in the level's category list. -/
def saved_category_rows (categories : List String) (inputs : List QuestionInput) :
    Except String (List (Nat × ℚ)) :=
  match build_cat_scores inputs [] with
  | Except.error e => Except.error e
  | Except.ok cat_scores =>
    let per_cat := (compute_survey_scores (enumerate1 (cat_scores.map Prod.snd))).2
    Except.ok ((List.range categories.length).map
      (fun i => (i + 1, (List.lookup (i + 1) per_cat).getD 0)))

/-- C3: evaluating the persisted CategoryScore rows on a framework with two
categories where only the second category has an answered question: the code
writes the second category's aggregated score (80) into the row with
category_id = 1 (the unanswered first category) and 0 into category_id = 2,
because only categories with answers are enumerated. -/
theorem category_rows_misaligned_c3 :
    saved_category_rows ["A", "B"]
        [⟨none, some 10, "HIB", 50, "A"⟩, ⟨some 80, some 100, "RAW_PERCENT", 50, "B"⟩] =
      Except.ok [(1, 80), (2, 0)] := by
  have h1 : build_cat_scores
      [⟨none, some 10, "HIB", 50, "A"⟩, ⟨some 80, some 100, "RAW_PERCENT", 50, "B"⟩] [] =
      Except.ok [("B", [(80, 50)])] := by
    norm_num [build_cat_scores, setdefault_append, raw_percent_score, min_def, max_def]
  rw [saved_category_rows, h1]
  norm_num [enumerate1, compute_survey_scores, survey_fold, category_fold,
    List.range, List.range.loop, List.lookup, List.enum, List.enumFrom]
  rfl

/-- A stored survey record, with the fields read by the dashboard scoper
(src/models.py: Survey.user_id, role_level, zone_id, region_id, city_id,
branch_id). Geographic ids are strings; an absent session value is the empty
string (Python falsy). -/
structure SurveyRec where
  user_id : Nat
  role_level : String
  zone_id : String
  region_id : String
  city_id : String
  branch_id : String

/-- Embedding of `pages_dashboard._scoped_query` (src/pages_dashboard.py lines
14-61) as the predicate the built query applies to one survey record. Python
truthiness of the geographic filter strings is `≠ ""` (None is encoded as ""). -/
def scoped_query (user_id : Nat) (role : String) (z r c b : String)
    (include_subordinates : Bool) (s : SurveyRec) : Bool :=
  if !include_subordinates then s.user_id == user_id
  else if role = "Admin" ∨ role = "" then
    if b ≠ "" then
      s.zone_id == z && s.region_id == r && s.city_id == c && s.branch_id == b
    else if c ≠ "" then s.zone_id == z && s.region_id == r && s.city_id == c
    else if r ≠ "" then s.zone_id == z && s.region_id == r
    else if z ≠ "" then s.zone_id == z
    else true
  else if role = "Zone" then
    let base := s.zone_id == z &&
      (s.role_level == "Region" || s.role_level == "City" || s.role_level == "Branch")
    let base := if r ≠ "" then base && s.region_id == r else base
    let base := if c ≠ "" then base && s.city_id == c else base
    let base := if b ≠ "" then base && s.branch_id == b else base
    s.user_id == user_id || base
  else if role = "Region" then
    let base := s.zone_id == z && s.region_id == r &&
      (s.role_level == "City" || s.role_level == "Branch")
    let base := if c ≠ "" then base && s.city_id == c else base
    let base := if b ≠ "" then base && s.branch_id == b else base
    s.user_id == user_id || base
  else if role = "City" then
    let base := s.zone_id == z && s.region_id == r && s.city_id == c &&
      s.role_level == "Branch"
    let base := if b ≠ "" then base && s.branch_id == b else base
    s.user_id == user_id || base
  else s.user_id == user_id

/-- C6: for a Region-role viewer with zone z and region r viewing subordinate
surveys, a record is visible exactly when it is the viewer's own, or its zone
and region match the viewer's, its level is City or Branch, and it passes any
supplied city/branch filter; and a record in the same zone but a different
region is never visible unless it is the viewer's own. -/
theorem region_scope_c6 (uid : Nat) (z r c b : String) (s : SurveyRec) :
    (scoped_query uid "Region" z r c b true s = true ↔
      (s.user_id = uid ∨
        (s.zone_id = z ∧ s.region_id = r ∧
          (s.role_level = "City" ∨ s.role_level = "Branch") ∧
          (c ≠ "" → s.city_id = c) ∧ (b ≠ "" → s.branch_id = b)))) ∧
    (s.zone_id = z → s.region_id ≠ r → s.user_id ≠ uid →
      scoped_query uid "Region" z r c b true s = false) := by
  constructor
  · by_cases hc : c = "" <;> by_cases hb : b = "" <;>
      simp [scoped_query, hc, hb] <;> tauto
  · intro _ hr huid
    by_cases hc : c = "" <;> by_cases hb : b = "" <;>
      simp [scoped_query, hc, hb, hr, huid]

/-- A user row as managed by `pages_admin.render_admin` (src/models.py User:
id, employee_id, name, role and the geographic chain; password handling is
orthogonal to the managed invariants and omitted). -/
structure AdminUser where
  id : Nat
  employee_id : String
  name : String
  role : String
  zone_id : Option String
  region_id : Option String
  city_id : Option String
  branch_id : Option String
deriving DecidableEq

/-- The `ROLE_ORDER` dict of src/pages_admin.py line 11. -/
def ROLE_ORDER (r : String) : Option Nat :=
  if r = "Admin" then some 0
  else if r = "Zone" then some 1
  else if r = "Region" then some 2
  else if r = "City" then some 3
  else if r = "Branch" then some 4
  else none

/-- Python `ROLE_ORDER.get(r, d)`; the subscript form `ROLE_ORDER[r]` is only
reached with one of the five role names, where it agrees with any default. -/
def role_order_get (r : String) (d : Nat) : Nat := (ROLE_ORDER r).getD d

/-- Embedding of `pages_admin._within_jurisdiction` (src/pages_admin.py lines
26-39). Python `==` on possibly-None column values is `Option` equality. -/
def within_jurisdiction (u : AdminUser) (current_role : String)
    (cz cr cc : Option String) : Bool :=
  if current_role = "Admin" then true
  else if current_role = "Zone" then u.zone_id == cz
  else if current_role = "Region" then u.zone_id == cz && u.region_id == cr
  else if current_role = "City" then
    u.zone_id == cz && u.region_id == cr && u.city_id == cc
  else false

/-- Number of Admin rows, as counted by
`tx.query(User).filter(User.role == "Admin").count()` (src/pages_admin.py
lines 293 and 332). -/
def count_admins (users : List AdminUser) : Nat :=
  (users.filter (fun u => u.role == "Admin")).length

/-- Mutate the first user whose employee_id matches, as
`db.query(User).filter(User.employee_id == emp_id).first()` followed by
attribute assignment does. -/
def update_first (users : List AdminUser) (emp_id : String)
    (f : AdminUser → AdminUser) : List AdminUser :=
  match users with
  | [] => []
  | u :: rest =>
    if u.employee_id == emp_id then f u :: rest
    else u :: update_first rest emp_id f

/-- Geography assignment shared by the create and update paths
(src/pages_admin.py lines 155-158): chain segments above the role's level are
set to None. -/
def assign_geo (u : AdminUser) (role zone region city branch : String) : AdminUser :=
  ⟨u.id, u.employee_id, u.name, u.role,
    if role = "Admin" then none else some zone,
    if role = "Admin" ∨ role = "Zone" then none else some region,
    if role = "Admin" ∨ role = "Zone" ∨ role = "Region" then none else some city,
    if role = "Admin" ∨ role = "Zone" ∨ role = "Region" ∨ role = "City" then none
    else some branch⟩

/-- Embedding of the Create/Update User form submission of
`pages_admin.render_admin` (src/pages_admin.py lines 120-158): field and
geography-depth validation, then either creation of a new user (with a fresh
primary key) or an in-place update of the existing row; for an update a
non-Admin actor may not assign a role at or above their own. The selectbox
values are strings, so the Python `in (None, "—")` checks reduce to equality
with the "—" sentinel. -/
def admin_form_submit (users : List AdminUser) (current_role : String)
    (emp_id name role zone region city branch : String) :
    Except String (List AdminUser) :=
  if emp_id = "" ∨ name = "" ∨ role = "" then
    Except.error "Employee ID, Name and Role are required"
  else if (role = "Zone" ∨ role = "Region" ∨ role = "City" ∨ role = "Branch") ∧
      zone = "" then
    Except.error "Please select a Zone"
  else if (role = "Region" ∨ role = "City" ∨ role = "Branch") ∧
      ((role = "Admin" ∨ role = "Zone") ∨ region = "—") then
    Except.error "Please select a Region"
  else if (role = "City" ∨ role = "Branch") ∧
      ((role = "Admin" ∨ role = "Zone" ∨ role = "Region") ∨ city = "—") then
    Except.error "Please select a City"
  else if role = "Branch" ∧
      ((role = "Admin" ∨ role = "Zone" ∨ role = "Region" ∨ role = "City") ∨
        branch = "—") then
    Except.error "Please select a Branch"
  else if users.any (fun u => u.employee_id == emp_id) then
    if role_order_get role 99 < role_order_get current_role 99 ∧
        current_role ≠ "Admin" then
      Except.error "Cannot assign a higher or equal role than your own"
    else
      Except.ok (update_first users emp_id (fun u =>
        assign_geo ⟨u.id, u.employee_id, name, role, u.zone_id, u.region_id,
          u.city_id, u.branch_id⟩ role zone region city branch))
  else
    Except.ok (users ++ [assign_geo
      ⟨(users.map AdminUser.id).foldr max 0 + 1, emp_id, name, role,
        none, none, none, none⟩ role zone region city branch])

/-- Embedding of the per-user Save action of `pages_admin.render_admin`
(src/pages_admin.py lines 280-305): SuperAdmin guard, role-elevation guard for
non-Admin actors, last-Admin demotion guard, then an update merged back by
primary key. -/
def admin_save_user (users : List AdminUser) (current_role : String)
    (u : AdminUser) (new_name new_role z_sel r_sel c_sel b_sel : String) :
    Except String (List AdminUser) :=
  if u.employee_id = "C32722" then Except.error "SuperAdmin cannot be modified"
  else if role_order_get new_role 99 < role_order_get current_role 99 ∧
      current_role ≠ "Admin" then
    Except.error "Cannot assign a higher or equal role than your own"
  else if u.role = "Admin" ∧ new_role ≠ "Admin" ∧ count_admins users ≤ 1 then
    Except.error "Cannot demote the last Admin"
  else
    let u' := assign_geo ⟨u.id, u.employee_id, new_name, new_role, u.zone_id,
      u.region_id, u.city_id, u.branch_id⟩ new_role z_sel r_sel c_sel b_sel
    Except.ok (users.map (fun v => if v.id == u.id then u' else v))

/-- Embedding of the per-user Delete action of `pages_admin.render_admin`
(src/pages_admin.py lines 321-338): SuperAdmin guard, self-delete guard,
last-Admin guard, then deletion by primary key. -/
def admin_delete_user (users : List AdminUser) (current_user_id : Nat)
    (u : AdminUser) : Except String (List AdminUser) :=
  if u.employee_id = "C32722" then Except.error "SuperAdmin cannot be deleted"
  else if u.id = current_user_id then Except.error "You cannot delete yourself"
  else if u.role = "Admin" ∧ count_admins users ≤ 1 then
    Except.error "Cannot delete the last Admin"
  else Except.ok (users.filter (fun v => v.id != u.id))

/-- Embedding of the user listing of `pages_admin.render_admin`
(src/pages_admin.py lines 186-196): when the session user's row carries
employee_id "C32722" every user is listed; otherwise only users of strictly
lower role rank within the viewer's jurisdiction. Session user ids are nonzero
(Python truthiness). -/
def visible_users (all_users : List AdminUser) (session_user_id : Option Nat)
    (current_role : String) (cz cr cc : Option String) : List AdminUser :=
  let is_super :=
    match session_user_id with
    | none => false
    | some i =>
      decide (i ≠ 0) && all_users.any (fun u => u.id == i && u.employee_id == "C32722")
  if is_super then all_users
  else all_users.filter (fun u =>
    decide (role_order_get u.role 99 > role_order_get current_role 0) &&
      within_jurisdiction u current_role cz cr cc)

/-- The single-Admin database of the C4 failing input. -/
def last_admin_state : List AdminUser :=
  [⟨1, "A1", "Alice", "Admin", none, none, none, none⟩]

/-- C4: the Create/Update form can demote the last remaining Admin: with a
single Admin on file, an Admin actor submitting the form for that employee with
role Zone succeeds (no rejection), leaving zero Admin accounts — the form path
has no last-Admin guard, unlike the per-user Save and Delete actions. -/
theorem last_admin_demoted_by_form_c4 :
    admin_form_submit last_admin_state "Admin" "A1" "Alice" "Zone" "East" "—" "—" "—" =
      Except.ok [⟨1, "A1", "Alice", "Zone", some "East", none, none, none⟩] ∧
    count_admins [⟨1, "A1", "Alice", "Zone", some "East", none, none, none⟩] = 0 := by
  constructor
  · simp [admin_form_submit, last_admin_state, update_first, assign_geo,
      role_order_get, ROLE_ORDER]
  · simp [count_admins]

/-- C10: the SuperAdmin account "C32722" is privileged and shielded from the
per-user actions: when the logged-in session user's row carries that employee
id, the user-management listing returns every user unfiltered; and for every
acting role, the Save action on that row is rejected with "SuperAdmin cannot be
modified" and the Delete action with "SuperAdmin cannot be deleted". -/
theorem superadmin_immutable_c10 (users : List AdminUser) (u : AdminUser)
    (i : Nat) (current_role : String) (cz cr cc : Option String) (cuid : Nat)
    (nm nr zs rs cs bs : String)
    (hsuper : u.employee_id = "C32722") (hi : i ≠ 0)
    (hmem : users.any (fun v => v.id == i && v.employee_id == "C32722") = true) :
    visible_users users (some i) current_role cz cr cc = users ∧
    admin_save_user users current_role u nm nr zs rs cs bs =
      Except.error "SuperAdmin cannot be modified" ∧
    admin_delete_user users cuid u =
      Except.error "SuperAdmin cannot be deleted" := by
  refine ⟨?_, ?_, ?_⟩
  · simp [visible_users, hi, hmem]
  · simp [admin_save_user, hsuper]
  · simp [admin_delete_user, hsuper]

/-- C10 witness: a concrete database whose only row is the SuperAdmin. -/
theorem superadmin_immutable_c10_witness :
    ((⟨7, "C32722", "Root", "Admin", none, none, none, none⟩ : AdminUser).employee_id
        = "C32722") ∧
    (7 : Nat) ≠ 0 ∧
    ([⟨7, "C32722", "Root", "Admin", none, none, none, none⟩] :
        List AdminUser).any (fun v => v.id == 7 && v.employee_id == "C32722") = true ∧
    visible_users [⟨7, "C32722", "Root", "Admin", none, none, none, none⟩]
        (some 7) "Zone" (some "East") none none =
      [⟨7, "C32722", "Root", "Admin", none, none, none, none⟩] ∧
    admin_save_user [⟨7, "C32722", "Root", "Admin", none, none, none, none⟩]
        "Admin" ⟨7, "C32722", "Root", "Admin", none, none, none, none⟩
        "Root" "Zone" "East" "—" "—" "—" =
      Except.error "SuperAdmin cannot be modified" ∧
    admin_delete_user [⟨7, "C32722", "Root", "Admin", none, none, none, none⟩]
        3 ⟨7, "C32722", "Root", "Admin", none, none, none, none⟩ =
      Except.error "SuperAdmin cannot be deleted" := by
  have h := superadmin_immutable_c10
    [⟨7, "C32722", "Root", "Admin", none, none, none, none⟩]
    ⟨7, "C32722", "Root", "Admin", none, none, none, none⟩
    7 "Zone" (some "East") none none 3 "Root" "Zone" "East" "—" "—" "—"
    rfl (by norm_num) (by simp)
  have h' := superadmin_immutable_c10
    [⟨7, "C32722", "Root", "Admin", none, none, none, none⟩]
    ⟨7, "C32722", "Root", "Admin", none, none, none, none⟩
    7 "Admin" (some "East") none none 3 "Root" "Zone" "East" "—" "—" "—"
    rfl (by norm_num) (by simp)
  exact ⟨rfl, by norm_num, by simp, h.1, h'.2.1, h.2.2⟩
